import Mathlib

/-!
Shallow embedding of the display-tuner core (src/src/display.rs and the
`set`/`list` command surface of src/src/main.rs).

The Win32 display-configuration API is modelled as a pure oracle (`Os`):
each foreign call's status code and returned payload is a field of the
oracle, and every embedded function additionally returns the list of OS
calls it issued (`OsCall`), so that "issues no commit call" style
properties are statable.  Rust `panic!`/`unwrap()`/index-out-of-bounds
aborts are modelled by the `Outcome.panic` constructor, `anyhow::bail!`
by `Outcome.err` with a typed error mirroring the bail message.  `usize`
arithmetic (`wrapping_add`, and the plain `-` of release builds) is
modelled as arithmetic modulo 2^64, and `i32 as usize` as sign extension,
i.e. reduction of the signed value modulo 2^64.
-/

namespace DisplayTuner

/-- src/src/display.rs line 13: the fixed DPI catalog. -/
def DPI_VALUES : List Int := [100, 125, 150, 175, 200, 225, 250, 300, 350, 400, 450, 500]

/-- `DISPLAYCONFIG_MODE_INFO_TYPE_SOURCE` (value 1 in the Win32 headers). -/
def MODE_INFO_TYPE_SOURCE : Nat := 1

/-- The `u32` sentinel `0xFFFF_FFFF` marking an invalid mode index. -/
def INVALID_MODE_IDX : Nat := 0xFFFFFFFF

/-- The fields of `DISPLAYCONFIG_PATH_INFO` that display.rs reads:
`sourceInfo.id` and `sourceInfo.Anonymous.modeInfoIdx` (a raw u32 value).
Adapter ids only key the per-path oracle queries, so they are left to the
oracle functions below. -/
structure PathInfo where
  sourceId : Nat
  modeInfoIdx : Nat
deriving Repr, DecidableEq

/-- The fields of `DISPLAYCONFIG_MODE_INFO` that display.rs reads or writes:
the `infoType` tag and the source-mode view of the payload union
(`Anonymous.sourceMode.width/height`).  Writing through the source view
never consults `infoType`, exactly as a Rust union write does. -/
structure ModeInfo where
  infoType : Nat
  width : Nat
  height : Nat
deriving Repr, DecidableEq

/-- `DisplayInfo` of display.rs (the display snapshot). -/
structure DisplayInfo where
  friendly_name : String
  source_id : Nat
  width : Nat
  height : Nat
  scaling_current : Int
  scaling_recommended : Int
deriving Repr, DecidableEq

/-- `DisplayConfig` of display.rs (the desired target). -/
structure DisplayConfig where
  width : Nat
  height : Nat
  scaling : Int
deriving Repr, DecidableEq

/-- Typed rendering of the `anyhow::bail!` sites of display.rs and the
`anyhow!` error of main.rs, each carrying the OS status code it reports. -/
inductive DisplayError where
  | bufferSizesFailed (code : Int)
  | queryFailed (code : Int)
  | nameQueryFailed (code : Int)
  | dpiQueryFailed (code : Int)
  | dpiIndexOutOfRange
  | setConfigFailed (code : Int)
  | setDpiFailed (code : Int)
  | noMatchingDisplays
deriving Repr, DecidableEq

/-- Result of running a piece of the Rust code: a value, a typed
`anyhow` error, or a process-aborting panic (`unwrap` on `None`,
slice index out of bounds). -/
inductive Outcome (α : Type) where
  | ok (a : α)
  | err (e : DisplayError)
  | panic
deriving Repr, DecidableEq

/-- Observable OS calls, recorded in issue order. -/
inductive OsCall where
  | queryConfig
  | getName
  | getDpi
  | setConfig
  | setDpi (offset : Int)
deriving Repr, DecidableEq

/-- Oracle for the Win32 display-configuration API: the status codes and
payloads the OS would return to each call during one run.  Fixed-size
UTF-16 name buffers are abstracted to the decoded, null-trimmed string. -/
structure Os where
  bufferSizesStatus : Int
  queryStatus : Int
  paths : List PathInfo
  modes : List ModeInfo
  nameStatus : PathInfo → Int
  monitorName : PathInfo → String
  dpiStatus : PathInfo → Int
  dpiMin : PathInfo → Int
  dpiCur : PathInfo → Int
  dpiMax : PathInfo → Int
  setConfigStatus : List PathInfo → List ModeInfo → Int
  setDpiStatus : PathInfo → Int → Int

/-- `x as usize` for an `i32` value `x`: sign extension, i.e. the
representative of `x` modulo 2^64. -/
def i32ToUsize (x : Int) : Nat := (x % (2 ^ 64 : Int)).toNat

/-- `usize::wrapping_add`. -/
def usizeWrapAdd (a b : Nat) : Nat := (a + b) % 2 ^ 64

/-- `usize` subtraction with the wrapping semantics of release builds
(`a.wrapping_sub b` for `b < 2^64`). -/
def usizeWrapSub (a b : Nat) : Nat := (a + (2 ^ 64 - b)) % 2 ^ 64

/-- `DisplayTuner::get_display_config` (display.rs lines 126-161): the
sizing call then the query call, each failing on a non-zero status; both
are one observable topology query. -/
def get_display_config (os : Os) : Outcome (List PathInfo × List ModeInfo) × List OsCall :=
  if os.bufferSizesStatus ≠ 0 then
    (.err (.bufferSizesFailed os.bufferSizesStatus), [.queryConfig])
  else if os.queryStatus ≠ 0 then
    (.err (.queryFailed os.queryStatus), [.queryConfig])
  else
    (.ok (os.paths, os.modes), [.queryConfig])

/-- `DisplayTuner::get_display_name_from_path` (display.rs lines 163-194):
on status 0 the name is `"{source_id} ({trimmed monitor name})"`, otherwise
the whole call bails. -/
def get_display_name_from_path (os : Os) (path : PathInfo) : Outcome String × List OsCall :=
  let result := os.nameStatus path
  if result = 0 then
    (.ok (toString path.sourceId ++ " (" ++ os.monitorName path ++ ")"), [.getName])
  else
    (.err (.nameQueryFailed result), [.getName])

/-- `DisplayTuner::get_display_scaling_from_path` (display.rs lines 196-226):
`min_abs = min_scale_rel.unsigned_abs()`,
`cur_index = min_abs.wrapping_add(cur_scale_rel as usize)`,
`rec_index = cur_index - cur_scale_rel as usize` (wrapping, as compiled in
release mode); the guard checks only `cur_index < DPI_VALUES.len()`, and
`DPI_VALUES[rec_index]` panics when `rec_index` is out of bounds. -/
def get_display_scaling_from_path (os : Os) (path : PathInfo) :
    Outcome (Int × Int) × List OsCall :=
  let result := os.dpiStatus path
  if result ≠ 0 then
    (.err (.dpiQueryFailed result), [.getDpi])
  else
    let min_abs : Nat := (os.dpiMin path).natAbs
    let curAsUsize : Nat := i32ToUsize (os.dpiCur path)
    let cur_index : Nat := usizeWrapAdd min_abs curAsUsize
    let rec_index : Nat := usizeWrapSub cur_index curAsUsize
    if h : cur_index < DPI_VALUES.length then
      match DPI_VALUES.get? rec_index with
      | some recVal => (.ok (DPI_VALUES.get ⟨cur_index, h⟩, recVal), [.getDpi])
      | none => (.panic, [.getDpi])
    else
      (.err .dpiIndexOutOfRange, [.getDpi])

/-- One iteration of the path loop of `enumerate_displays` (display.rs
lines 57-95): skip (`ok none`) on the sentinel index, an out-of-bounds
index, or a non-source mode; otherwise resolve name and scaling and build
the snapshot. -/
def processPath (os : Os) (modes : List ModeInfo) (path : PathInfo) :
    Outcome (Option DisplayInfo) × List OsCall :=
  if path.modeInfoIdx = INVALID_MODE_IDX then
    (.ok none, [])
  else
    match modes.get? path.modeInfoIdx with
    | none => (.ok none, [])
    | some mode =>
      if mode.infoType ≠ MODE_INFO_TYPE_SOURCE then
        (.ok none, [])
      else
        match get_display_name_from_path os path with
        | (.ok friendly_name, t1) =>
          match get_display_scaling_from_path os path with
          | (.ok scaling, t2) =>
            (.ok (some { friendly_name := friendly_name
                         source_id := path.sourceId
                         width := mode.width
                         height := mode.height
                         scaling_current := scaling.1
                         scaling_recommended := scaling.2 }), t1 ++ t2)
          | (.err e, t2) => (.err e, t1 ++ t2)
          | (.panic, t2) => (.panic, t1 ++ t2)
        | (.err e, t1) => (.err e, t1)
        | (.panic, t1) => (.panic, t1)

/-- The path loop of `enumerate_displays`, accumulating snapshots and
propagating any per-path error or panic. -/
def enumLoop (os : Os) (modes : List ModeInfo) :
    List PathInfo → Outcome (List DisplayInfo) × List OsCall
  | [] => (.ok [], [])
  | path :: rest =>
    match processPath os modes path with
    | (.ok none, t) =>
      let r := enumLoop os modes rest
      (r.1, t ++ r.2)
    | (.ok (some d), t) =>
      match enumLoop os modes rest with
      | (.ok ds, t') => (.ok (d :: ds), t ++ t')
      | (.err e, t') => (.err e, t ++ t')
      | (.panic, t') => (.panic, t ++ t')
    | (.err e, t) => (.err e, t)
    | (.panic, t) => (.panic, t)

/-- `DisplayTuner::enumerate_displays` (display.rs lines 52-100). -/
def enumerate_displays (os : Os) : Outcome (List DisplayInfo) × List OsCall :=
  match get_display_config os with
  | (.ok (paths, modes), t0) =>
    let r := enumLoop os modes paths
    (r.1, t0 ++ r.2)
  | (.err e, t0) => (.err e, t0)
  | (.panic, t0) => (.panic, t0)

/-- `DisplayTuner::apply_display_resolution` (display.rs lines 228-270):
re-query, locate the path by source id with `.unwrap()` (panic when
absent), index the modes buffer with the raw `modeInfoIdx` (panic when out
of bounds, sentinel included, and no source-type check), overwrite the
source-view width/height, and commit the whole buffer set. -/
def apply_display_resolution (os : Os) (display : DisplayInfo) (config : DisplayConfig) :
    Outcome Unit × List OsCall :=
  match get_display_config os with
  | (.ok (paths, modes), t0) =>
    match paths.find? (fun p => p.sourceId == display.source_id) with
    | none => (.panic, t0)
    | some path =>
      match modes.get? path.modeInfoIdx with
      | none => (.panic, t0)
      | some mode =>
        let modes' := modes.set path.modeInfoIdx
          { mode with width := config.width, height := config.height }
        let result := os.setConfigStatus paths modes'
        if result = 0 then
          (.ok (), t0 ++ [.setConfig])
        else
          (.err (.setConfigFailed result), t0 ++ [.setConfig])
  | (.err e, t0) => (.err e, t0)
  | (.panic, t0) => (.panic, t0)

/-- `DisplayTuner::apply_display_scaling` (display.rs lines 272-316):
re-query, locate the path by source id with `.unwrap()` (panic when
absent), re-derive the recommended scaling from a fresh DPI query on that
path, look up the catalog positions of the recommended and the desired
percentage with `.unwrap()` (panic when either is absent), and issue the
DPI set call with the relative offset `target_idx - recommended_idx`. -/
def apply_display_scaling (os : Os) (display : DisplayInfo) (config : DisplayConfig) :
    Outcome Unit × List OsCall :=
  match get_display_config os with
  | (.ok (paths, _modes), t0) =>
    match paths.find? (fun p => p.sourceId == display.source_id) with
    | none => (.panic, t0)
    | some path =>
      match get_display_scaling_from_path os path with
      | (.ok current_scale, t1) =>
        let recommoned_scale := current_scale.2
        match DPI_VALUES.findIdx? (fun v => v == recommoned_scale) with
        | none => (.panic, t0 ++ t1)
        | some recommoned_scale_idx =>
          match DPI_VALUES.findIdx? (fun v => v == config.scaling) with
          | none => (.panic, t0 ++ t1)
          | some target_scale_idx =>
            let scale_rel : Int := (target_scale_idx : Int) - (recommoned_scale_idx : Int)
            let result := os.setDpiStatus path scale_rel
            if result = 0 then
              (.ok (), t0 ++ t1 ++ [.setDpi scale_rel])
            else
              (.err (.setDpiFailed result), t0 ++ t1 ++ [.setDpi scale_rel])
      | (.err e, t1) => (.err e, t0 ++ t1)
      | (.panic, t1) => (.panic, t0 ++ t1)
  | (.err e, t0) => (.err e, t0)
  | (.panic, t0) => (.panic, t0)

/-- `DisplayTuner::apply_display_config` (display.rs lines 102-124):
no-op success when neither resolution nor scaling differs, otherwise the
resolution update then the scaling update, each only when changed. -/
def apply_display_config (os : Os) (display : DisplayInfo) (config : DisplayConfig) :
    Outcome Unit × List OsCall :=
  let resolution_changed : Bool :=
    display.width != config.width || display.height != config.height
  let scaling_changed : Bool := display.scaling_current != config.scaling
  if !resolution_changed && !scaling_changed then
    (.ok (), [])
  else
    match (if resolution_changed then apply_display_resolution os display config
           else (.ok (), [])) with
    | (.ok _, t1) =>
      match (if scaling_changed then apply_display_scaling os display config
             else (.ok (), [])) with
      | (o, t2) => (o, t1 ++ t2)
    | (.err e, t1) => (.err e, t1)
    | (.panic, t1) => (.panic, t1)

/-- The `set` subcommand's arguments (main.rs lines 22-39). -/
structure SetArgs where
  id : Option Nat
  all : Bool
  width : Option Nat
  height : Option Nat
  scaling : Option Int
deriving Repr, DecidableEq

/-- The display-selection step of the `set` arm (main.rs lines 60-66):
without `--all`, retain by `--id` when given; with neither flag a warning
is logged and the full list is kept. -/
def selectDisplays (args : SetArgs) (displays : List DisplayInfo) : List DisplayInfo :=
  if !args.all then
    match args.id with
    | some id => displays.filter (fun d => d.source_id == id)
    | none => displays
  else
    displays

/-- The apply loop of the `set` arm (main.rs lines 72-80): per display,
build the target from the flags with the display's current values as
defaults, and apply; `?` stops at the first failure. -/
def applyLoop (os : Os) (args : SetArgs) :
    List DisplayInfo → Outcome Unit × List OsCall
  | [] => (.ok (), [])
  | disp :: rest =>
    let target : DisplayConfig :=
      { width := args.width.getD disp.width
        height := args.height.getD disp.height
        scaling := args.scaling.getD disp.scaling_current }
    match apply_display_config os disp target with
    | (.ok _, t) =>
      let r := applyLoop os args rest
      (r.1, t ++ r.2)
    | (.err e, t) => (.err e, t)
    | (.panic, t) => (.panic, t)

/-- The `Commands::Set` arm of `main` (main.rs lines 57-81): enumerate,
select, fail with "No matching displays found" on an empty selection,
otherwise apply to each selected display. -/
def run_set (os : Os) (args : SetArgs) : Outcome Unit × List OsCall :=
  match enumerate_displays os with
  | (.ok ds, t) =>
    let displays := selectDisplays args ds
    if displays.isEmpty then
      (.err .noMatchingDisplays, t)
    else
      let r := applyLoop os args displays
      (r.1, t ++ r.2)
  | (.err e, t) => (.err e, t)
  | (.panic, t) => (.panic, t)

/-- Modelled from the spec: the human-readable rendering of a
`DisplayInfo` used by `info!("{d}")` in main.rs and `println!("{first}")`
in tests.rs.  The `Display` implementation itself is not among the
provided source files, so this follows the spec's stated form
`[id:<source_id>] <friendly_name> — <width>x<height> @ <scaling_current>%`
with ` (rec <scaling_recommended>%)` appended only when current and
recommended differ. -/
def renderDisplayInfo (d : DisplayInfo) : String :=
  let base := "[id:" ++ toString d.source_id ++ "] " ++ d.friendly_name ++ " — " ++
    toString d.width ++ "x" ++ toString d.height ++ " @ " ++
    toString d.scaling_current ++ "%"
  if d.scaling_current = d.scaling_recommended then
    base
  else
    base ++ " (rec " ++ toString d.scaling_recommended ++ "%)"

/-! Concrete fixtures used by witnesses and counterexamples. -/

/-- A single active path: source id 1, mode index 0. -/
def path1 : PathInfo := { sourceId := 1, modeInfoIdx := 0 }

/-- A healthy one-display topology: one source mode 2560x1440, all OS
status codes zero, DPI offsets (0, 0, 0). -/
def baseOs : Os :=
  { bufferSizesStatus := 0
    queryStatus := 0
    paths := [path1]
    modes := [{ infoType := 1, width := 2560, height := 1440 }]
    nameStatus := fun _ => 0
    monitorName := fun _ => "Dell U2720Q"
    dpiStatus := fun _ => 0
    dpiMin := fun _ => 0
    dpiCur := fun _ => 0
    dpiMax := fun _ => 0
    setConfigStatus := fun _ _ => 0
    setDpiStatus := fun _ _ => 0 }

/-- `baseOs` with the DPI query returning offsets `(m, c, 0)`. -/
def osDpi (m c : Int) : Os := { baseOs with dpiMin := fun _ => m, dpiCur := fun _ => c }

/-- Topology whose only mode is a source mode of width 0. -/
def osZeroWidth : Os := { baseOs with modes := [{ infoType := 1, width := 0, height := 1440 }] }

/-- Topology whose only mode is in bounds but not a source mode
(`infoType = 2`, the target type). -/
def osNonSource : Os := { baseOs with modes := [{ infoType := 2, width := 111, height := 222 }] }

/-- A path carrying the sentinel invalid mode index. -/
def pathSentinel : PathInfo := { sourceId := 2, modeInfoIdx := INVALID_MODE_IDX }

/-- Snapshot matching `baseOs` at 100% scaling. -/
def dispBase : DisplayInfo :=
  { friendly_name := "1 (Dell U2720Q)", source_id := 1, width := 2560, height := 1440
    scaling_current := 100, scaling_recommended := 100 }

/-- Snapshot of the spec's scaling scenario: current 100%, recommended 150%. -/
def disp100 : DisplayInfo := { dispBase with scaling_current := 100, scaling_recommended := 150 }

/-- Snapshot whose source id matches no path of `baseOs`. -/
def dispGone : DisplayInfo := { dispBase with source_id := 99 }

/-- `set` arguments selecting nothing: no `--id`, no `--all`, only
`--scaling 175`. -/
def argsNoSel : SetArgs := { id := none, all := false, width := none, height := none, scaling := some 175 }

/-- Desired config changing only scaling, to 175%. -/
def cfg175 : DisplayConfig := { width := 2560, height := 1440, scaling := 175 }

/-- Desired config with the non-catalog scaling 120%. -/
def cfg120 : DisplayConfig := { width := 2560, height := 1440, scaling := 120 }

/-- Desired config changing only the resolution. -/
def cfgRes : DisplayConfig := { width := 3840, height := 2160, scaling := 100 }

/-- Desired config equal to `dispBase`'s current state. -/
def cfgSame : DisplayConfig := { width := 2560, height := 1440, scaling := 100 }

/-! Helper lemmas. -/

/-- Sign extension of an in-range `i32` to `usize`, as an integer. -/
lemma i32ToUsize_spec (c : Int) (hc1 : -(2 ^ 31) ≤ c) (hc2 : c < 2 ^ 31) :
    (i32ToUsize c : Int) = if 0 ≤ c then c else c + 2 ^ 64 := by
  unfold i32ToUsize
  split <;> omega

/-- The wrapped current index equals the signed sum when that sum is
nonnegative (and small), for in-range `i32` offsets. -/
lemma cur_index_eq_toNat (m c : Int) (hm1 : -(2 ^ 31) ≤ m) (hm2 : m < 2 ^ 31)
    (hc1 : -(2 ^ 31) ≤ c) (hc2 : c < 2 ^ 31) (h : 0 ≤ (m.natAbs : Int) + c) :
    usizeWrapAdd m.natAbs (i32ToUsize c) = ((m.natAbs : Int) + c).toNat := by
  unfold usizeWrapAdd i32ToUsize
  omega

/-- The wrapped current index is below 12 exactly when the signed sum
`abs(min) + cur` lies in `[0, 12)`. -/
lemma cur_index_lt_iff (m c : Int) (hm1 : -(2 ^ 31) ≤ m) (hm2 : m < 2 ^ 31)
    (hc1 : -(2 ^ 31) ≤ c) (hc2 : c < 2 ^ 31) :
    usizeWrapAdd m.natAbs (i32ToUsize c) < 12 ↔
      0 ≤ (m.natAbs : Int) + c ∧ (m.natAbs : Int) + c < 12 := by
  unfold usizeWrapAdd i32ToUsize
  constructor <;> intro h <;> omega

/-- Wrapped subtraction of the current offset from the wrapped current
index always lands back on `abs(min)`, for in-range `i32` offsets. -/
lemma rec_index_eq (m c : Int) (hm1 : -(2 ^ 31) ≤ m) (hm2 : m < 2 ^ 31)
    (hc1 : -(2 ^ 31) ≤ c) (hc2 : c < 2 ^ 31) :
    usizeWrapSub (usizeWrapAdd m.natAbs (i32ToUsize c)) (i32ToUsize c) = m.natAbs := by
  unfold usizeWrapSub usizeWrapAdd i32ToUsize
  omega

/-- The catalog has 12 entries. -/
lemma DPI_VALUES_length : DPI_VALUES.length = 12 := by rfl

/-- Looking up an in-bounds catalog index succeeds and agrees with `getD`. -/
lemma DPI_get?_lt : ∀ i < 12, DPI_VALUES.get? i = some (DPI_VALUES.getD i 0) := by decide

/-- In-bounds catalog entries are catalog members. -/
lemma DPI_getD_mem : ∀ i < 12, DPI_VALUES.getD i 0 ∈ DPI_VALUES := by decide

/-- `get` at an in-bounds catalog index agrees with `getD`. -/
lemma DPI_get_eq_getD (i : Nat) (h : i < DPI_VALUES.length) :
    DPI_VALUES.get ⟨i, h⟩ = DPI_VALUES.getD i 0 := by
  have h12 : i < 12 := by simpa [DPI_VALUES_length] using h
  have h1 := DPI_get?_lt i h12
  rw [List.get?_eq_get h] at h1
  exact Option.some.inj h1

/-- A topology query issues exactly one observable OS call. -/
lemma get_display_config_trace (os : Os) : (get_display_config os).2 = [.queryConfig] := by
  unfold get_display_config
  split
  · rfl
  · split <;> rfl

/-- A DPI query issues exactly one observable OS call. -/
lemma get_display_scaling_trace (os : Os) (p : PathInfo) :
    (get_display_scaling_from_path os p).2 = [.getDpi] := by
  simp only [get_display_scaling_from_path]
  split
  · rfl
  · split
    · split <;> rfl
    · rfl

/-- A successful DPI query returns a pair of catalog members. -/
lemma get_scaling_ok_mem (os : Os) (p : PathInfo) (cr : Int × Int) (t : List OsCall)
    (h : get_display_scaling_from_path os p = (.ok cr, t)) :
    cr.1 ∈ DPI_VALUES ∧ cr.2 ∈ DPI_VALUES := by
  simp only [get_display_scaling_from_path] at h
  split at h
  · simp at h
  next hst =>
    split at h
    next hlt =>
      split at h
      next recVal heq =>
        injection h with h1 h2
        injection h1 with h3
        constructor
        · rw [← h3]
          exact List.get_mem DPI_VALUES _ hlt
        · rw [← h3]
          exact List.get?_mem heq
      next heq => simp at h
    next hlt => simp at h

/-- A snapshot produced by one loop iteration carries catalog scalings. -/
lemma processPath_ok_mem (os : Os) (modes : List ModeInfo) (p : PathInfo)
    (d : DisplayInfo) (t : List OsCall)
    (h : processPath os modes p = (.ok (some d), t)) :
    d.scaling_current ∈ DPI_VALUES ∧ d.scaling_recommended ∈ DPI_VALUES := by
  simp only [processPath] at h
  split at h
  · simp at h
  · split at h
    · simp at h
    next mode hmode =>
      split at h
      · simp at h
      next htype =>
        split at h
        next name t1 hname =>
          split at h
          next scaling t2 hscale =>
            injection h with h1 h2
            injection h1 with h3
            injection h3 with h4
            have hmem := get_scaling_ok_mem os p scaling t2 hscale
            rw [← h4]
            exact hmem
          next e t2 hscale => simp at h
          next t2 hscale => simp at h
        next e t1 hname => simp at h
        next t1 hname => simp at h

/-- Every snapshot accumulated by the path loop carries catalog scalings. -/
lemma enumLoop_ok_mem (os : Os) (modes : List ModeInfo) :
    ∀ (ps : List PathInfo) (ds : List DisplayInfo) (t : List OsCall),
      enumLoop os modes ps = (.ok ds, t) →
      ∀ d ∈ ds, d.scaling_current ∈ DPI_VALUES ∧ d.scaling_recommended ∈ DPI_VALUES := by
  intro ps
  induction ps with
  | nil =>
    intro ds t h d hd
    simp only [enumLoop] at h
    injection h with h1 h2
    injection h1 with h3
    rw [← h3] at hd
    simp at hd
  | cons p rest ih =>
    intro ds t h d hd
    simp only [enumLoop] at h
    split at h
    next tp hp =>
      injection h with h1 h2
      exact ih ds _ (by rw [← h1]) d hd
    next d' tp hp =>
      split at h
      next ds' t' hrest =>
        injection h with h1 h2
        injection h1 with h3
        rw [← h3] at hd
        rcases List.mem_cons.mp hd with hd1 | hd2
        · rw [hd1]
          exact processPath_ok_mem os modes p d' tp hp
        · exact ih ds' t' hrest d hd2
      next e t' hrest => simp at h
      next t' hrest => simp at h
    next e tp hp => simp at h
    next tp hp => simp at h

/-- A valid path (non-sentinel in-bounds source mode, name query ok)
reduces one loop iteration to the DPI query's outcome. -/
lemma processPath_valid (os : Os) (modes : List ModeInfo) (p : PathInfo) (mode : ModeInfo)
    (hsent : p.modeInfoIdx ≠ INVALID_MODE_IDX)
    (hmode : modes.get? p.modeInfoIdx = some mode)
    (htype : mode.infoType = MODE_INFO_TYPE_SOURCE)
    (hname : os.nameStatus p = 0) :
    processPath os modes p =
      (match get_display_scaling_from_path os p with
       | (.ok scaling, t2) =>
         (.ok (some { friendly_name := toString p.sourceId ++ " (" ++ os.monitorName p ++ ")"
                      source_id := p.sourceId
                      width := mode.width
                      height := mode.height
                      scaling_current := scaling.1
                      scaling_recommended := scaling.2 }), [.getName] ++ t2)
       | (.err e, t2) => (.err e, [.getName] ++ t2)
       | (.panic, t2) => (.panic, [.getName] ++ t2)) := by
  have hn : get_display_name_from_path os p =
      (.ok (toString p.sourceId ++ " (" ++ os.monitorName p ++ ")"), [.getName]) := by
    simp [get_display_name_from_path, hname]
  simp only [processPath, if_neg hsent, hmode, htype, hn]
  rcases hs : get_display_scaling_from_path os p with ⟨o, t2⟩
  cases o <;> simp

/-- A zero-status topology query returns the oracle's buffers. -/
lemma get_display_config_ok (os : Os) (hbs : os.bufferSizesStatus = 0)
    (hqs : os.queryStatus = 0) :
    get_display_config os = (.ok (os.paths, os.modes), [.queryConfig]) := by
  simp [get_display_config, hbs, hqs]

/-! Claim theorems. -/

/-- C6: when the desired width, height and scaling already equal the
snapshot's current width, height and scaling, `apply_display_config`
returns success and issues no OS call at all (empty call trace: no
topology re-query, no commit, no DPI set). -/
theorem apply_noop_when_already_satisfied (os : Os) (display : DisplayInfo)
    (config : DisplayConfig) (hw : display.width = config.width)
    (hh : display.height = config.height)
    (hs : display.scaling_current = config.scaling) :
    apply_display_config os display config = (.ok (), []) := by
  simp [apply_display_config, hw, hh, hs]

/-- Witness for C6: re-applying `dispBase`'s own state is a traceless
success. -/
theorem apply_noop_when_already_satisfied_witness :
    (dispBase.width = cfgSame.width ∧ dispBase.height = cfgSame.height ∧
      dispBase.scaling_current = cfgSame.scaling) ∧
    apply_display_config baseOs dispBase cfgSame = (.ok (), []) :=
  ⟨⟨rfl, rfl, rfl⟩, apply_noop_when_already_satisfied baseOs dispBase cfgSame rfl rfl rfl⟩

/-- C8: a path whose source mode index is the sentinel `0xFFFFFFFF`, or out
of bounds for the modes buffer, or referencing a non-source mode, is
silently skipped (no snapshot, no error, no OS call) and the loop
continues with the remaining paths unchanged. -/
theorem invalid_path_skipped_silently (os : Os) (modes : List ModeInfo)
    (p : PathInfo) (rest : List PathInfo)
    (h : p.modeInfoIdx = INVALID_MODE_IDX ∨ modes.get? p.modeInfoIdx = none ∨
      ∃ mode, modes.get? p.modeInfoIdx = some mode ∧ mode.infoType ≠ MODE_INFO_TYPE_SOURCE) :
    processPath os modes p = (.ok none, []) ∧
    enumLoop os modes (p :: rest) = enumLoop os modes rest := by
  have hpp : processPath os modes p = (.ok none, []) := by
    rcases h with h1 | h2 | ⟨mode, hm, ht⟩
    · simp [processPath, h1]
    · simp only [processPath]
      split
      · rfl
      · rw [h2]
    · simp only [processPath]
      split
      · rfl
      · rw [hm]
        simp [ht]
  refine ⟨hpp, ?_⟩
  simp only [enumLoop, hpp]
  simp

/-- Witness for C8: the sentinel-index path is skipped in `baseOs`'s
modes buffer. -/
theorem invalid_path_skipped_silently_witness :
    (pathSentinel.modeInfoIdx = INVALID_MODE_IDX ∨
      baseOs.modes.get? pathSentinel.modeInfoIdx = none ∨
      ∃ mode, baseOs.modes.get? pathSentinel.modeInfoIdx = some mode ∧
        mode.infoType ≠ MODE_INFO_TYPE_SOURCE) ∧
    processPath baseOs baseOs.modes pathSentinel = (.ok none, []) ∧
    enumLoop baseOs baseOs.modes (pathSentinel :: [path1]) =
      enumLoop baseOs baseOs.modes [path1] :=
  ⟨Or.inl rfl,
    invalid_path_skipped_silently baseOs baseOs.modes pathSentinel [path1] (Or.inl rfl)⟩

/-- C9 (rendering modelled from the spec, the `Display` implementation not
being among the source files): the rendering is exactly
`[id:<source_id>] <friendly_name> — <width>x<height> @ <scaling_current>%`,
with ` (rec <scaling_recommended>%)` appended iff current and recommended
differ. -/
theorem render_display_info_format (d : DisplayInfo) :
    renderDisplayInfo d =
      "[id:" ++ toString d.source_id ++ "] " ++ d.friendly_name ++ " — " ++
      toString d.width ++ "x" ++ toString d.height ++ " @ " ++
      toString d.scaling_current ++ "%" ++
      (if d.scaling_current = d.scaling_recommended then ""
       else " (rec " ++ toString d.scaling_recommended ++ "%)") := by
  simp only [renderDisplayInfo]
  split
  · rw [String.append_empty]
  · simp only [String.append_assoc]

/-- C7 counterexample: a successful enumeration can return a snapshot of
width 0 when the OS reports a zero-width source mode; nothing in the code
enforces `width > 0`. -/
theorem enumerate_zero_width_snapshot_cx :
    enumerate_displays osZeroWidth =
      (.ok [{ friendly_name := "1 (Dell U2720Q)", source_id := 1, width := 0, height := 1440,
              scaling_current := 100, scaling_recommended := 100 }],
       [.queryConfig, .getName, .getDpi]) := by
  decide

/-- C7 (amended): every snapshot of a successful enumeration carries
catalog scalings; width and height are copied verbatim from the OS source
mode, with no positivity guarantee. -/
theorem enumerate_scalings_in_catalog (os : Os) (ds : List DisplayInfo) (t : List OsCall)
    (h : enumerate_displays os = (.ok ds, t)) :
    ∀ d ∈ ds, d.scaling_current ∈ DPI_VALUES ∧ d.scaling_recommended ∈ DPI_VALUES := by
  simp only [enumerate_displays] at h
  split at h
  next paths modes t0 hcfg =>
    injection h with h1 h2
    exact enumLoop_ok_mem os modes paths ds _ (by rw [← h1])
  next e t0 hcfg => simp at h
  next t0 hcfg => simp at h

/-- Witness for C7: the snapshot enumerated from offsets `(-2, 1)` has
scalings 175 and 150, both catalog members. -/
theorem enumerate_scalings_in_catalog_witness :
    enumerate_displays (osDpi (-2) 1) =
      (.ok [{ friendly_name := "1 (Dell U2720Q)", source_id := 1, width := 2560, height := 1440,
              scaling_current := 175, scaling_recommended := 150 }],
       [.queryConfig, .getName, .getDpi]) ∧
    ((175 : Int) ∈ DPI_VALUES ∧ (150 : Int) ∈ DPI_VALUES) := by
  refine ⟨by decide, ?_⟩
  exact enumerate_scalings_in_catalog (osDpi (-2) 1)
    [⟨"1 (Dell U2720Q)", 1, 2560, 1440, 175, 150⟩]
    [.queryConfig, .getName, .getDpi] (by decide)
    ⟨"1 (Dell U2720Q)", 1, 2560, 1440, 175, 150⟩ (by decide)

/-- C2: whenever a scaling update reaches the DPI-set call, the issued
offset is the catalog index of the desired percentage minus the catalog
index of the recommended percentage freshly derived from the re-queried
path; and the whole computation is independent of the snapshot's stored
`scaling_recommended`. -/
theorem scaling_offset_from_fresh_recommended (os : Os) (display : DisplayInfo)
    (config : DisplayConfig) (paths : List PathInfo) (modes : List ModeInfo)
    (t0 : List OsCall) (path : PathInfo) (cr : Int × Int) (t1 : List OsCall)
    (recIdx tgtIdx : Nat)
    (hcfg : get_display_config os = (.ok (paths, modes), t0))
    (hfind : paths.find? (fun p => p.sourceId == display.source_id) = some path)
    (hscale : get_display_scaling_from_path os path = (.ok cr, t1))
    (hrec : DPI_VALUES.findIdx? (fun v => v == cr.2) = some recIdx)
    (htgt : DPI_VALUES.findIdx? (fun v => v == config.scaling) = some tgtIdx) :
    (apply_display_scaling os display config).2 =
      t0 ++ t1 ++ [.setDpi ((tgtIdx : Int) - (recIdx : Int))] ∧
    ∀ x : Int,
      apply_display_scaling os { display with scaling_recommended := x } config =
        apply_display_scaling os display config := by
  constructor
  · simp only [apply_display_scaling, hcfg, hfind, hscale, hrec, htgt]
    split <;> rfl
  · intro x
    rfl

/-- Witness for C2, the spec's scenario: fresh recommended 150 (index 2),
desired 175 (index 3), snapshot recommendation ignored; offset 3 - 2 = 1. -/
theorem scaling_offset_from_fresh_recommended_witness :
    (get_display_scaling_from_path (osDpi (-2) (-2)) path1 = (.ok (100, 150), [.getDpi]) ∧
      DPI_VALUES.findIdx? (fun v => v == ((100 : Int), (150 : Int)).2) = some 2 ∧
      DPI_VALUES.findIdx? (fun v => v == cfg175.scaling) = some 3) ∧
    (apply_display_scaling (osDpi (-2) (-2)) disp100 cfg175).2 =
      [.queryConfig] ++ [.getDpi] ++ [.setDpi 1] :=
  ⟨⟨by decide, by decide, by decide⟩,
    (scaling_offset_from_fresh_recommended (osDpi (-2) (-2)) disp100 cfg175
      [path1] (osDpi (-2) (-2)).modes [.queryConfig] path1 (100, 150) [.getDpi] 2 3
      rfl rfl (by decide) (by decide) (by decide)).1⟩

/-- C4 counterexample: desired scaling 120 is not a catalog member;
`apply_display_scaling` panics (failed `unwrap` of the catalog position)
instead of returning the typed `UnsupportedScalingValue` error. -/
theorem unsupported_scaling_panics_cx :
    apply_display_scaling baseOs dispBase cfg120 = (.panic, [.queryConfig, .getDpi]) := by
  decide

/-- C4 (amended): when the desired percentage (or the freshly derived
recommended percentage) is not an exact catalog member, the scaling update
panics before any OS set call is attempted — no interpolation, no nearest
match, and no typed error. -/
theorem unsupported_scaling_panics_before_set (os : Os) (display : DisplayInfo)
    (config : DisplayConfig) (paths : List PathInfo) (modes : List ModeInfo)
    (t0 : List OsCall) (path : PathInfo) (cr : Int × Int) (t1 : List OsCall)
    (hcfg : get_display_config os = (.ok (paths, modes), t0))
    (hfind : paths.find? (fun p => p.sourceId == display.source_id) = some path)
    (hscale : get_display_scaling_from_path os path = (.ok cr, t1))
    (h : DPI_VALUES.findIdx? (fun v => v == cr.2) = none ∨
      DPI_VALUES.findIdx? (fun v => v == config.scaling) = none) :
    apply_display_scaling os display config = (.panic, t0 ++ t1) ∧
    OsCall.setConfig ∉ t0 ++ t1 ∧ ∀ off : Int, OsCall.setDpi off ∉ t0 ++ t1 := by
  have ht0 : t0 = [.queryConfig] := by
    have h' := get_display_config_trace os
    rw [hcfg] at h'
    exact h'
  have ht1 : t1 = [.getDpi] := by
    have h' := get_display_scaling_trace os path
    rw [hscale] at h'
    exact h'
  refine ⟨?_, ?_, ?_⟩
  · simp only [apply_display_scaling, hcfg, hfind, hscale]
    rcases h with h | h
    · rw [h]
    · rcases hr : DPI_VALUES.findIdx? (fun v => v == cr.2) with _ | recIdx
      · rfl
      · rw [h]
  · rw [ht0, ht1]
    decide
  · intro off
    rw [ht0, ht1]
    simp

/-- Witness for C4: the concrete scenario of `unsupported_scaling_panics_cx`
run through the amended theorem. -/
theorem unsupported_scaling_panics_before_set_witness :
    (get_display_scaling_from_path baseOs path1 = (.ok (100, 100), [.getDpi]) ∧
      DPI_VALUES.findIdx? (fun v => v == cfg120.scaling) = none) ∧
    apply_display_scaling baseOs dispBase cfg120 = (.panic, [.queryConfig] ++ [.getDpi]) :=
  ⟨⟨by decide, by decide⟩,
    (unsupported_scaling_panics_before_set baseOs dispBase cfg120
      [path1] baseOs.modes [.queryConfig] path1 (100, 100) [.getDpi]
      rfl rfl (by decide) (Or.inr (by decide))).1⟩

/-- C5 counterexample: applying to a snapshot whose source id (99) matches
no freshly queried path panics (`unwrap` on `None`) instead of returning
the typed `DisplayNotFound` error; no commit or DPI-set call is issued. -/
theorem vanished_display_panics_cx :
    apply_display_config baseOs dispGone cfgRes = (.panic, [.queryConfig]) := by
  decide

/-- C5 (amended): when the snapshot's source id matches no path of the
freshly re-queried topology, both update paths — and hence `apply` as soon
as anything differs — panic instead of returning `DisplayNotFound`, and no
commit or DPI-set call is issued. -/
theorem vanished_display_panics_without_commit (os : Os) (display : DisplayInfo)
    (config : DisplayConfig) (paths : List PathInfo) (modes : List ModeInfo)
    (t0 : List OsCall)
    (hcfg : get_display_config os = (.ok (paths, modes), t0))
    (hnone : paths.find? (fun p => p.sourceId == display.source_id) = none) :
    apply_display_resolution os display config = (.panic, t0) ∧
    apply_display_scaling os display config = (.panic, t0) ∧
    ((display.width ≠ config.width ∨ display.height ≠ config.height ∨
        display.scaling_current ≠ config.scaling) →
      apply_display_config os display config = (.panic, t0)) ∧
    OsCall.setConfig ∉ t0 ∧ ∀ off : Int, OsCall.setDpi off ∉ t0 := by
  have ht0 : t0 = [.queryConfig] := by
    have h' := get_display_config_trace os
    rw [hcfg] at h'
    exact h'
  have hres : apply_display_resolution os display config = (.panic, t0) := by
    simp only [apply_display_resolution, hcfg, hnone]
  have hsca : apply_display_scaling os display config = (.panic, t0) := by
    simp only [apply_display_scaling, hcfg, hnone]
  refine ⟨hres, hsca, ?_, ?_, ?_⟩
  · intro hchanged
    by_cases h1 : display.width = config.width <;>
      by_cases h2 : display.height = config.height <;>
        by_cases h3 : display.scaling_current = config.scaling
    · rcases hchanged with hc | hc | hc
      · exact absurd h1 hc
      · exact absurd h2 hc
      · exact absurd h3 hc
    all_goals simp [apply_display_config, h1, h2, h3, hres, hsca]
  · rw [ht0]
    decide
  · intro off
    rw [ht0]
    simp

/-- Witness for C5: the concrete scenario of `vanished_display_panics_cx`
run through the amended theorem. -/
theorem vanished_display_panics_without_commit_witness :
    ([path1].find? (fun p => p.sourceId == dispGone.source_id) = none ∧
      (dispGone.width ≠ cfgRes.width ∨ dispGone.height ≠ cfgRes.height ∨
        dispGone.scaling_current ≠ cfgRes.scaling)) ∧
    apply_display_config baseOs dispGone cfgRes = (.panic, [.queryConfig]) :=
  ⟨⟨by decide, Or.inl (by decide)⟩,
    (vanished_display_panics_without_commit baseOs dispGone cfgRes
      [path1] baseOs.modes [.queryConfig] rfl (by decide)).2.2.1 (Or.inl (by decide))⟩

/-- C10 counterexample: an in-bounds mode index referencing a non-source
mode (`infoType = 2`) violates the claimed precondition, yet the
resolution update does not panic: the mode's payload is overwritten as if
it were a source mode and the commit succeeds. -/
theorem resolution_nonsource_mode_no_panic_cx :
    apply_display_resolution osNonSource dispBase cfgRes =
      (.ok (), [.queryConfig, .setConfig]) ∧
    osNonSource.modes.get? path1.modeInfoIdx =
      some { infoType := 2, width := 111, height := 222 } := by
  decide

/-- C10 (amended): after locating the path, the raw mode index is used with
no sentinel, bounds or source-type check: an out-of-bounds index (the
sentinel included) panics instead of returning a typed error, while any
in-bounds mode — source-type or not — has its source-view payload
overwritten and the whole buffer committed. -/
theorem resolution_unchecked_mode_index (os : Os) (display : DisplayInfo)
    (config : DisplayConfig) (paths : List PathInfo) (modes : List ModeInfo)
    (t0 : List OsCall) (path : PathInfo)
    (hcfg : get_display_config os = (.ok (paths, modes), t0))
    (hfind : paths.find? (fun p => p.sourceId == display.source_id) = some path) :
    (modes.get? path.modeInfoIdx = none →
      apply_display_resolution os display config = (.panic, t0)) ∧
    (∀ mode, modes.get? path.modeInfoIdx = some mode →
      apply_display_resolution os display config =
        (if os.setConfigStatus paths
            (modes.set path.modeInfoIdx
              { mode with width := config.width, height := config.height }) = 0 then
          (.ok (), t0 ++ [.setConfig])
        else
          (.err (.setConfigFailed
            (os.setConfigStatus paths
              (modes.set path.modeInfoIdx
                { mode with width := config.width, height := config.height }))),
           t0 ++ [.setConfig]))) := by
  constructor
  · intro hoob
    simp only [apply_display_resolution, hcfg, hfind, hoob]
  · intro mode hmode
    simp only [apply_display_resolution, hcfg, hfind, hmode]

/-- Witness for C10: the non-source in-bounds mode of
`resolution_nonsource_mode_no_panic_cx` goes through the no-check branch. -/
theorem resolution_unchecked_mode_index_witness :
    ((osNonSource.modes.get? path1.modeInfoIdx =
        some { infoType := 2, width := 111, height := 222 }) ∧
      ({ infoType := 2, width := 111, height := 222 } : ModeInfo).infoType ≠
        MODE_INFO_TYPE_SOURCE) ∧
    apply_display_resolution osNonSource dispBase cfgRes =
      (if osNonSource.setConfigStatus [path1]
          (osNonSource.modes.set path1.modeInfoIdx
            { infoType := 2, width := cfgRes.width, height := cfgRes.height }) = 0 then
        (.ok (), [.queryConfig] ++ [.setConfig])
      else
        (.err (.setConfigFailed
          (osNonSource.setConfigStatus [path1]
            (osNonSource.modes.set path1.modeInfoIdx
              { infoType := 2, width := cfgRes.width, height := cfgRes.height }))),
         [.queryConfig] ++ [.setConfig])) :=
  ⟨⟨by decide, by decide⟩,
    (resolution_unchecked_mode_index osNonSource dispBase cfgRes
      [path1] osNonSource.modes [.queryConfig] path1 rfl rfl).2
      { infoType := 2, width := 111, height := 222 } (by decide)⟩

/-- C3 counterexample: with neither `--id` nor `--all`, the `set` action
does not fail with a usage error: it succeeds and issues a DPI-set call,
i.e. it applies to all displays after merely logging a warning. -/
theorem set_no_selector_applies_all_cx :
    argsNoSel.id = none ∧ argsNoSel.all = false ∧
    run_set (osDpi (-2) 0) argsNoSel =
      (.ok (), [.queryConfig, .getName, .getDpi, .queryConfig, .getDpi, .setDpi 1]) := by
  decide

/-- C3 (amended): with neither `--id` nor `--all`, the `set` action keeps
the full enumerated display list (logging a warning) and applies to every
display; it is not a usage error. -/
theorem set_no_selector_applies_all (os : Os) (args : SetArgs)
    (ds : List DisplayInfo) (t : List OsCall)
    (hid : args.id = none) (hall : args.all = false)
    (henum : enumerate_displays os = (.ok ds, t)) (hne : ds ≠ []) :
    selectDisplays args ds = ds ∧
    run_set os args = ((applyLoop os args ds).1, t ++ (applyLoop os args ds).2) := by
  have hsel : selectDisplays args ds = ds := by
    simp [selectDisplays, hall, hid]
  refine ⟨hsel, ?_⟩
  have hemp : ds.isEmpty = false := by
    cases ds
    · exact absurd rfl hne
    · rfl
  simp only [run_set, henum, hsel, hemp]
  simp

/-- Witness for C3: the concrete scenario of
`set_no_selector_applies_all_cx` run through the amended theorem. -/
theorem set_no_selector_applies_all_witness :
    (argsNoSel.id = none ∧ argsNoSel.all = false ∧
      enumerate_displays (osDpi (-2) 0) =
        (.ok [⟨"1 (Dell U2720Q)", 1, 2560, 1440, 150, 150⟩],
         [.queryConfig, .getName, .getDpi])) ∧
    selectDisplays argsNoSel [⟨"1 (Dell U2720Q)", 1, 2560, 1440, 150, 150⟩] =
      [⟨"1 (Dell U2720Q)", 1, 2560, 1440, 150, 150⟩] :=
  ⟨⟨rfl, rfl, by decide⟩,
    (set_no_selector_applies_all (osDpi (-2) 0) argsNoSel
      [⟨"1 (Dell U2720Q)", 1, 2560, 1440, 150, 150⟩]
      [.queryConfig, .getName, .getDpi] rfl rfl (by decide) (by decide)).1⟩

/-- C1 counterexample: for returned offsets `(min, cur) = (-20, -10)` the
current index is 10 — inside the 12-entry catalog — yet the DPI query
panics (the unchecked recommended index is 20), so the whole enumeration
panics instead of producing catalog percentages or failing with
`DpiIndexOutOfRange`. -/
theorem dpi_in_bounds_current_index_panics_cx :
    get_display_scaling_from_path (osDpi (-20) (-10)) path1 = (.panic, [.getDpi]) ∧
    usizeWrapAdd ((-20 : Int)).natAbs (i32ToUsize (-10)) = 10 ∧
    enumerate_displays (osDpi (-20) (-10)) =
      (.panic, [.queryConfig, .getName, .getDpi]) := by
  refine ⟨by decide, by decide, by decide⟩

/-- C1 (amended): for every DPI query whose returned minimum offset has
absolute value inside the 12-entry catalog, the code computes
`current_index = abs(min) + cur` and `recommended_index = current_index -
cur`, returns the catalog percentages at those indices when
`current_index` is in bounds (and enumeration stores them in the
snapshot), and fails the entire enumeration with `DpiIndexOutOfRange`
when `current_index` is out of bounds. -/
theorem dpi_index_conversion_and_bounds (os : Os) (p : PathInfo)
    (hst : os.dpiStatus p = 0)
    (hm1 : -(2 ^ 31) ≤ os.dpiMin p) (hm2 : os.dpiMin p < 2 ^ 31)
    (hc1 : -(2 ^ 31) ≤ os.dpiCur p) (hc2 : os.dpiCur p < 2 ^ 31)
    (hA : (os.dpiMin p).natAbs < 12) :
    (0 ≤ ((os.dpiMin p).natAbs : Int) + os.dpiCur p ∧
        ((os.dpiMin p).natAbs : Int) + os.dpiCur p < 12 →
      get_display_scaling_from_path os p =
        (.ok (DPI_VALUES.getD (((os.dpiMin p).natAbs : Int) + os.dpiCur p).toNat 0,
              DPI_VALUES.getD ((((os.dpiMin p).natAbs : Int) + os.dpiCur p) -
                os.dpiCur p).toNat 0),
         [.getDpi])) ∧
    (¬(0 ≤ ((os.dpiMin p).natAbs : Int) + os.dpiCur p ∧
        ((os.dpiMin p).natAbs : Int) + os.dpiCur p < 12) →
      get_display_scaling_from_path os p = (.err .dpiIndexOutOfRange, [.getDpi])) ∧
    (∀ (rest : List PathInfo) (mode : ModeInfo),
      os.bufferSizesStatus = 0 → os.queryStatus = 0 → os.paths = p :: rest →
      p.modeInfoIdx ≠ INVALID_MODE_IDX → os.modes.get? p.modeInfoIdx = some mode →
      mode.infoType = MODE_INFO_TYPE_SOURCE → os.nameStatus p = 0 →
      ¬(0 ≤ ((os.dpiMin p).natAbs : Int) + os.dpiCur p ∧
          ((os.dpiMin p).natAbs : Int) + os.dpiCur p < 12) →
      (enumerate_displays os).1 = .err .dpiIndexOutOfRange) ∧
    (∀ mode : ModeInfo,
      os.bufferSizesStatus = 0 → os.queryStatus = 0 → os.paths = [p] →
      p.modeInfoIdx ≠ INVALID_MODE_IDX → os.modes.get? p.modeInfoIdx = some mode →
      mode.infoType = MODE_INFO_TYPE_SOURCE → os.nameStatus p = 0 →
      0 ≤ ((os.dpiMin p).natAbs : Int) + os.dpiCur p ∧
        ((os.dpiMin p).natAbs : Int) + os.dpiCur p < 12 →
      enumerate_displays os =
        (.ok [{ friendly_name := toString p.sourceId ++ " (" ++ os.monitorName p ++ ")"
                source_id := p.sourceId
                width := mode.width
                height := mode.height
                scaling_current :=
                  DPI_VALUES.getD (((os.dpiMin p).natAbs : Int) + os.dpiCur p).toNat 0
                scaling_recommended :=
                  DPI_VALUES.getD ((((os.dpiMin p).natAbs : Int) + os.dpiCur p) -
                    os.dpiCur p).toNat 0 }],
         [.queryConfig, .getName, .getDpi])) := by
  have hstatus : ¬ os.dpiStatus p ≠ 0 := fun hne => hne hst
  have h1 : 0 ≤ ((os.dpiMin p).natAbs : Int) + os.dpiCur p ∧
      ((os.dpiMin p).natAbs : Int) + os.dpiCur p < 12 →
      get_display_scaling_from_path os p =
        (.ok (DPI_VALUES.getD (((os.dpiMin p).natAbs : Int) + os.dpiCur p).toNat 0,
              DPI_VALUES.getD ((((os.dpiMin p).natAbs : Int) + os.dpiCur p) -
                os.dpiCur p).toNat 0),
         [.getDpi]) := by
    intro hin
    have hlt : usizeWrapAdd (os.dpiMin p).natAbs (i32ToUsize (os.dpiCur p)) <
        DPI_VALUES.length := by
      rw [DPI_VALUES_length]
      exact (cur_index_lt_iff (os.dpiMin p) (os.dpiCur p) hm1 hm2 hc1 hc2).mpr hin
    have hci : usizeWrapAdd (os.dpiMin p).natAbs (i32ToUsize (os.dpiCur p)) =
        (((os.dpiMin p).natAbs : Int) + os.dpiCur p).toNat :=
      cur_index_eq_toNat (os.dpiMin p) (os.dpiCur p) hm1 hm2 hc1 hc2 hin.1
    have hri : usizeWrapSub
        (usizeWrapAdd (os.dpiMin p).natAbs (i32ToUsize (os.dpiCur p)))
        (i32ToUsize (os.dpiCur p)) = (os.dpiMin p).natAbs :=
      rec_index_eq (os.dpiMin p) (os.dpiCur p) hm1 hm2 hc1 hc2
    have hrn : ((((os.dpiMin p).natAbs : Int) + os.dpiCur p) - os.dpiCur p).toNat =
        (os.dpiMin p).natAbs := by omega
    simp only [get_display_scaling_from_path]
    rw [if_neg hstatus, dif_pos hlt, hri, DPI_get?_lt (os.dpiMin p).natAbs hA,
      DPI_get_eq_getD _ hlt, hrn, hci]
  have h2 : ¬(0 ≤ ((os.dpiMin p).natAbs : Int) + os.dpiCur p ∧
      ((os.dpiMin p).natAbs : Int) + os.dpiCur p < 12) →
      get_display_scaling_from_path os p = (.err .dpiIndexOutOfRange, [.getDpi]) := by
    intro hnot
    have hge : ¬ usizeWrapAdd (os.dpiMin p).natAbs (i32ToUsize (os.dpiCur p)) <
        DPI_VALUES.length := by
      rw [DPI_VALUES_length]
      intro hlt12
      exact hnot ((cur_index_lt_iff (os.dpiMin p) (os.dpiCur p) hm1 hm2 hc1 hc2).mp hlt12)
    simp only [get_display_scaling_from_path]
    rw [if_neg hstatus, dif_neg hge]
  refine ⟨h1, h2, ?_, ?_⟩
  · intro rest mode hbs hqs hpaths hsent hmidx htype hname hnot
    have herr := h2 hnot
    have hpp := processPath_valid os os.modes p mode hsent hmidx htype hname
    rw [herr] at hpp
    have hcfg := get_display_config_ok os hbs hqs
    simp only [enumerate_displays, hcfg, hpaths, enumLoop, hpp]
  · intro mode hbs hqs hpaths hsent hmidx htype hname hin
    have hok := h1 hin
    have hpp := processPath_valid os os.modes p mode hsent hmidx htype hname
    simp only [hok] at hpp
    have hcfg := get_display_config_ok os hbs hqs
    simp only [enumerate_displays, hcfg, hpaths, enumLoop, hpp]
    simp

/-- Witness for C1: offsets `(-2, 1)` give current index 3 (175%) and
recommended index 2 (150%). -/
theorem dpi_index_conversion_and_bounds_witness :
    ((osDpi (-2) 1).dpiStatus path1 = 0 ∧ ((-2 : Int)).natAbs < 12 ∧
      0 ≤ (((-2 : Int)).natAbs : Int) + 1 ∧ (((-2 : Int)).natAbs : Int) + 1 < 12) ∧
    get_display_scaling_from_path (osDpi (-2) 1) path1 = (.ok (175, 150), [.getDpi]) :=
  ⟨⟨rfl, by decide, by decide, by decide⟩,
    (dpi_index_conversion_and_bounds (osDpi (-2) 1) path1 rfl (by decide) (by decide)
      (by decide) (by decide) (by decide)).1 ⟨by decide, by decide⟩⟩

end DisplayTuner
